import Mathlib

/-!
# Verification of the multi-dimensional drama analyzer

Shallow embedding of `src/analyzer/multi_dimensional_analyzer.py` from the
`bitcoin-dev-drama-detector` repository.

Modelling conventions:

* Python floats are modelled by exact rationals (`ℚ`).  Python's
  `round(x, 2)` is modelled by `round2` below: rounding `x * 100` to the
  nearest integer and dividing by `100`.  (Binary floating point artefacts
  and the half-to-even tie rule are not representable in an exact model;
  no claim settled here depends on the direction of an exact tie.)
* The two external NLP libraries (the VADER sentiment analyzer and the
  TextBlob subjectivity analyzer) and the compiled regex pattern counters
  from `src/analyzer/pattern_libraries.py` are external engines, not code
  of this module; they are modelled as an oracle `String → TextSignals`
  that supplies, per input text, exactly the numbers the source reads from
  them (`polarity_scores(text)['compound']`, `TextBlob(text).sentiment.subjectivity`,
  and the 18 `_count_patterns` results).  Every arithmetic step downstream
  of those reads is embedded exactly from the source.
* The `evidence` field of `DimensionalScores` (source line 60) is an opaque
  diagnostics dictionary that never influences any score or downstream
  logic; it is omitted from the embedding.
-/

namespace DramaDetector

/-- Python's `round(x, 2)` on the exact-rational model: round `x * 100` to
the nearest integer, then divide by `100`. -/
def round2 (q : ℚ) : ℚ := (round (q * 100) : ℚ) / 100

/-- The per-text outputs of the external engines that
`MultiDimensionalAnalyzer.analyze` consumes: the VADER compound polarity,
the TextBlob subjectivity, and the `_count_patterns` result for each of the
18 pattern categories imported from `pattern_libraries.py`. -/
structure TextSignals where
  compound : ℚ
  subjectivity : ℚ
  positive_count : ℕ
  hedge_count : ℕ
  fta_count : ℕ
  indirect_agg_count : ℕ
  directive_count : ℕ
  expressive_count : ℕ
  accusation_count : ℕ
  challenge_count : ℕ
  evidence_count : ℕ
  ack_count : ℕ
  constructive_count : ℕ
  dismissive_count : ℕ
  ad_hominem_count : ℕ
  strawman_count : ℕ
  authority_count : ℕ
  goalposts_count : ℕ
  whataboutism_count : ℕ
  stonewalling_count : ℕ
  dismiss_without_engagement_count : ℕ
  threats_count : ℕ
deriving DecidableEq

/-- `DimensionalScores` (source lines 31-60), with the field defaults of the
dataclass.  The opaque `evidence` diagnostics dict is omitted. -/
structure DimensionalScores where
  vader_negativity : ℚ := 0
  subjectivity : ℚ := 0
  politeness : ℚ := 5
  face_threats : ℚ := 0
  argument_quality : ℚ := 5
  fallacy_score : ℚ := 0
  directive_count : ℕ := 0
  expressive_count : ℕ := 0
  accusation_count : ℕ := 0
  challenge_count : ℕ := 0
  stonewalling_indicators : ℕ := 0
  threat_indicators : ℕ := 0
  drama_score : ℚ := 0
  neutrality_score : ℚ := 0
  health_assessment : String := "unknown"
deriving DecidableEq

/-- `MultiDimensionalAnalyzer._calculate_composite_scores`
(source lines 201-251). -/
def calculate_composite_scores (s : DimensionalScores) : DimensionalScores :=
  let speech_act_drama : ℚ := min 10 ((s.accusation_count : ℚ) * 3 +
    (s.challenge_count : ℚ) * 2.5 + (s.expressive_count : ℚ) * 1.5 +
    (s.directive_count : ℚ) * 0.5)
  let stonewalling_penalty : ℚ := min 3 ((s.stonewalling_indicators : ℚ) * 1.5)
  let drama0 : ℚ := round2 (s.vader_negativity * 0.20 +
    (10 - s.politeness) * 0.20 + s.face_threats * 0.15 +
    s.subjectivity * 0.10 + s.fallacy_score * 0.15 +
    (10 - s.argument_quality) * 0.10 + speech_act_drama * 0.10)
  let drama : ℚ := round2 (min 10 (drama0 + stonewalling_penalty))
  let neutrality : ℚ := round2 ((10 - s.subjectivity) * 0.30 +
    s.argument_quality * 0.30 + s.politeness * 0.20 +
    (10 - s.fallacy_score) * 0.10 + (10 - s.face_threats) * 0.10)
  let health : String :=
    if drama ≥ 6 ∧ neutrality < 5 then "toxic"
    else if drama ≥ 5 ∧ neutrality ≥ 5 then "heated-but-fair"
    else if drama < 4 ∧ neutrality ≥ 6 then "productive"
    else if drama < 4 ∧ neutrality < 5 then "dismissive"
    else "mixed"
  { s with drama_score := drama, neutrality_score := neutrality,
           health_assessment := health }

/-- Steps 1-8 of `MultiDimensionalAnalyzer.analyze` (source lines 93-188):
the arithmetic applied to the engine outputs once the length gate has been
passed. -/
def score_signals (t : TextSignals) : DimensionalScores :=
  let vader_negativity : ℚ := round2 ((1 - t.compound) * 5)
  let subjectivity : ℚ := round2 (t.subjectivity * 10)
  let politeness_raw : ℚ := ((t.positive_count : ℚ) * 2 + (t.hedge_count : ℚ)) -
    ((t.fta_count : ℚ) * 2 + (t.indirect_agg_count : ℚ) * 1.5)
  let politeness : ℚ := round2 (max 0 (min 10 (5 + politeness_raw)))
  let face_threats : ℚ := round2 (min 10 (((t.fta_count : ℚ) + (t.indirect_agg_count : ℚ)) * 2))
  let quality_raw : ℚ := ((t.evidence_count : ℚ) * 2 + (t.ack_count : ℚ) * 2 +
    (t.constructive_count : ℚ) * 1.5) - (t.dismissive_count : ℚ) * 2
  let argument_quality : ℚ := round2 (max 0 (min 10 (5 + quality_raw)))
  let total_fallacies : ℕ := t.ad_hominem_count + t.strawman_count +
    t.authority_count + t.goalposts_count + t.whataboutism_count
  let fallacy_score : ℚ := round2 (min 10 ((total_fallacies : ℚ) * 2.5))
  calculate_composite_scores
    { vader_negativity := vader_negativity
      subjectivity := subjectivity
      politeness := politeness
      face_threats := face_threats
      argument_quality := argument_quality
      fallacy_score := fallacy_score
      directive_count := t.directive_count
      expressive_count := t.expressive_count
      accusation_count := t.accusation_count
      challenge_count := t.challenge_count
      stonewalling_indicators := t.stonewalling_count + t.dismiss_without_engagement_count
      threat_indicators := t.threats_count }

/-- The characters Python's `str.strip()` strips: exactly those with
`str.isspace()` true, i.e. codepoints 09-0D, 1C-1F, 20, 85, A0, 1680,
2000-200A, 2028, 2029, 202F, 205F and 3000. -/
def is_py_space (c : Char) : Bool :=
  (9 ≤ c.toNat && c.toNat ≤ 13) || (28 ≤ c.toNat && c.toNat ≤ 31) ||
  c.toNat = 32 || c.toNat = 133 || c.toNat = 160 || c.toNat = 0x1680 ||
  (0x2000 ≤ c.toNat && c.toNat ≤ 0x200A) || c.toNat = 0x2028 ||
  c.toNat = 0x2029 || c.toNat = 0x202F || c.toNat = 0x205F ||
  c.toNat = 0x3000

/-- Python's `text.strip()` as a character list: drop whitespace from both
ends. -/
def py_strip (text : String) : List Char :=
  ((text.data.dropWhile is_py_space).reverse.dropWhile is_py_space).reverse

/-- The degenerate-input gate of `analyze` (source line 90):
`if not text or len(text.strip()) < 10`. -/
def short_circuit (text : String) : Bool :=
  text = "" || (py_strip text).length < 10

/-- `MultiDimensionalAnalyzer.analyze` (source lines 77-188), parameterised
by the external-engine oracle `sig`. -/
def analyze (sig : String → TextSignals) (text : String) : DimensionalScores :=
  if short_circuit text then {} else score_signals (sig text)

/-- `MultiDimensionalAnalyzer._assess_thread_health` (source lines 326-336). -/
def assess_thread_health (drama neutrality : ℚ) : String :=
  if drama ≥ 6 ∧ neutrality < 5 then "toxic"
  else if drama ≥ 5 ∧ neutrality ≥ 5 then "heated-but-fair"
  else if drama < 4 ∧ neutrality ≥ 6 then "productive"
  else if drama < 4 ∧ neutrality < 5 then "dismissive"
  else "mixed"

/-- Modelled from the spec: the 5-branch health classification rule of
spec section 4.2 step 10, stated in the spec's own words (first matching
branch wins), for comparison with the two code sites that implement it. -/
def healthRule5 (drama neutrality : ℚ) : String :=
  if drama ≥ 6 ∧ neutrality < 5 then "toxic"
  else if drama ≥ 5 ∧ neutrality ≥ 5 then "heated-but-fair"
  else if drama < 4 ∧ neutrality ≥ 6 then "productive"
  else if drama < 4 ∧ neutrality < 5 then "dismissive"
  else "mixed"

/-!
## Thread aggregation (`analyze_thread`, source lines 253-324)

A raw thread message is a dict `{"author": ..., "content": ..., "timestamp": ...}`;
the source reads it only through `msg.get('content', '')` and
`msg.get('author', 'unknown')`, so a message is modelled by its two optional
fields (the timestamp is never read). Python dicts preserve insertion order,
so the per-author grouping dict is modelled by an association list in
first-encounter order.
-/

/-- A raw thread message record; `none` models an absent key. -/
structure RawMessage where
  author : Option String
  content : Option String
deriving DecidableEq

/-- Per-author entry of the `author_analysis` dict (source lines 303-309). -/
structure AuthorStats where
  message_count : ℕ
  avg_drama : ℚ
  avg_neutrality : ℚ
  stonewalling_indicators : ℕ
  is_difficult : Bool
deriving DecidableEq

/-- The dict returned by `analyze_thread` for a non-empty thread
(source lines 311-324). -/
structure ThreadAnalysis where
  thread_drama_score : ℚ
  thread_neutrality_score : ℚ
  max_drama : ℚ
  message_count : ℕ
  unique_authors : ℕ
  is_pile_on : Bool
  health_assessment : String
  author_analysis : List (String × AuthorStats)
  difficult_participants : List String
deriving DecidableEq

/-- `analyze_thread` returns dicts of two different shapes: the sentinel for
an empty thread (source line 264) and the full analysis. -/
inductive ThreadResult where
  | emptyThread (drama_score : ℚ) (neutrality_score : ℚ) (health : String)
  | analysis (a : ThreadAnalysis)
deriving DecidableEq

/-- Append one score to the per-author grouping (source lines 274-277):
`author_scores.setdefault-like` accumulation preserving first-encounter
order of authors. -/
def add_author_score (groups : List (String × List DimensionalScores))
    (author : String) (s : DimensionalScores) : List (String × List DimensionalScores) :=
  match groups with
  | [] => [(author, [s])]
  | (a, ss) :: rest =>
      if a = author then (a, ss ++ [s]) :: rest
      else (a, ss) :: add_author_score rest author s

/-- The `author_scores` dict built by the loop at source lines 270-277. -/
def group_by_author (pairs : List (String × DimensionalScores)) :
    List (String × List DimensionalScores) :=
  pairs.foldl (fun g p => add_author_score g p.1 p.2) []

/-- Mean of a list of rationals, `sum(xs) / len(xs)`. -/
def meanOf (l : List ℚ) : ℚ := l.sum / (l.length : ℚ)

/-- Python's `max` over a non-empty list (`0` as an unused placeholder for
the empty list, which the source never reaches). -/
def listMax : List ℚ → ℚ
  | [] => 0
  | x :: xs => xs.foldl max x

/-- `message_scores` of `analyze_thread` (source lines 270-272). -/
def message_scores (sig : String → TextSignals) (messages : List RawMessage) :
    List DimensionalScores :=
  messages.map (fun m => analyze sig (m.content.getD ""))

/-- The `author_scores` grouping of `analyze_thread` (source lines 274-277). -/
def thread_author_scores (sig : String → TextSignals) (messages : List RawMessage) :
    List (String × List DimensionalScores) :=
  group_by_author (messages.map (fun m => (m.author.getD "unknown", analyze sig (m.content.getD ""))))

/-- `avg_drama` of `analyze_thread` (source line 283). -/
def thread_avg_drama (sig : String → TextSignals) (messages : List RawMessage) : ℚ :=
  meanOf ((message_scores sig messages).map (fun s => s.drama_score))

/-- `avg_neutrality` of `analyze_thread` (source line 284). -/
def thread_avg_neutrality (sig : String → TextSignals) (messages : List RawMessage) : ℚ :=
  meanOf ((message_scores sig messages).map (fun s => s.neutrality_score))

/-- `max_drama` of `analyze_thread` (source line 285). -/
def thread_max_drama (sig : String → TextSignals) (messages : List RawMessage) : ℚ :=
  listMax ((message_scores sig messages).map (fun s => s.drama_score))

/-- Per-author stats of the `author_analysis` loop (source lines 297-309). -/
def author_stats (ss : List DimensionalScores) : AuthorStats :=
  let author_drama : ℚ := (ss.map (fun s => s.drama_score)).sum / (ss.length : ℚ)
  let author_neutrality : ℚ := (ss.map (fun s => s.neutrality_score)).sum / (ss.length : ℚ)
  let stonewalling : ℕ := (ss.map (fun s => s.stonewalling_indicators)).sum
  { message_count := ss.length
    avg_drama := round2 author_drama
    avg_neutrality := round2 author_neutrality
    stonewalling_indicators := stonewalling
    is_difficult := decide (stonewalling > 2 ∨ (author_drama > 6 ∧ author_neutrality < 4)) }

/-- `MultiDimensionalAnalyzer.analyze_thread` (source lines 253-324). -/
def analyze_thread (sig : String → TextSignals) (messages : List RawMessage) :
    ThreadResult :=
  match messages with
  | [] => .emptyThread 0 5 "empty"
  | _ :: _ =>
    let author_analysis := (thread_author_scores sig messages).map
      (fun p => (p.1, author_stats p.2))
    .analysis
      { thread_drama_score := round2 (thread_avg_drama sig messages)
        thread_neutrality_score := round2 (thread_avg_neutrality sig messages)
        max_drama := round2 (thread_max_drama sig messages)
        message_count := messages.length
        unique_authors := (thread_author_scores sig messages).length
        is_pile_on := decide (thread_avg_drama sig messages > 5 ∧
          (thread_author_scores sig messages).length > 5 ∧
          thread_max_drama sig messages > 7)
        health_assessment := assess_thread_health (thread_avg_drama sig messages)
          (thread_avg_neutrality sig messages)
        author_analysis := author_analysis
        difficult_participants :=
          (author_analysis.filter (fun p => p.2.is_difficult)).map (fun p => p.1) }

/-- The health label of a `ThreadResult`. -/
def ThreadResult.health : ThreadResult → String
  | .emptyThread _ _ h => h
  | .analysis a => a.health_assessment

/-- The pile-on flag of a `ThreadResult` (`false` for the empty sentinel,
which carries none). -/
def ThreadResult.pileOn : ThreadResult → Bool
  | .emptyThread _ _ _ => false
  | .analysis a => a.is_pile_on

/-- The message count of a `ThreadResult` (`0` for the empty sentinel). -/
def ThreadResult.msgCount : ThreadResult → ℕ
  | .emptyThread _ _ _ => 0
  | .analysis a => a.message_count

/-!
## Participant profiling (`ParticipantProfiler`, source lines 343-468)

The profiler's two dicts (`profiles` and `_score_history`) are modelled by
association lists in insertion order, with the small lookup/update helpers
below standing in for Python dict indexing.
-/

/-- `ParticipantProfile` (source lines 343-365), with the dataclass field
defaults. -/
structure ParticipantProfile where
  handle : String
  message_count : ℕ := 0
  avg_drama : ℚ := 0
  avg_neutrality : ℚ := 0
  avg_politeness : ℚ := 5
  avg_argument_quality : ℚ := 5
  avg_subjectivity : ℚ := 5
  avg_fallacy_rate : ℚ := 0
  avg_face_threats : ℚ := 0
  directive_rate : ℚ := 0
  expressive_rate : ℚ := 0
  accusation_rate : ℚ := 0
  total_stonewalling : ℕ := 0
  is_difficult : Bool := false
deriving DecidableEq

/-- Dict lookup `d.get(k)` on the association-list model. -/
def findEntry {β : Type} : List (String × β) → String → Option β
  | [], _ => none
  | (a, b) :: rest, k => if a = k then some b else findEntry rest k

/-- Dict assignment `d[k] = v` on the association-list model: replace the
first entry for `k`, or append a new entry. -/
def setEntry {β : Type} : List (String × β) → String → β → List (String × β)
  | [], k, v => [(k, v)]
  | (a, b) :: rest, k, v =>
      if a = k then (a, v) :: rest else (a, b) :: setEntry rest k v

/-- `ParticipantProfiler._update_profile` (source lines 412-450) as a pure
function of the stored profile and the handle's score history.  Mirrors the
source exactly, including the `n == 0` early return (which leaves every
other field of the stored profile untouched) and the `or 1`
division-by-zero guard. -/
def update_profile (profile : ParticipantProfile)
    (history : List DimensionalScores) : ParticipantProfile :=
  let n : ℕ := history.length
  if n = 0 then { profile with message_count := 0 }
  else
    let avg_drama : ℚ := (history.map (fun s => s.drama_score)).sum / (n : ℚ)
    let avg_neutrality : ℚ := (history.map (fun s => s.neutrality_score)).sum / (n : ℚ)
    let avg_politeness : ℚ := (history.map (fun s => s.politeness)).sum / (n : ℚ)
    let avg_argument_quality : ℚ := (history.map (fun s => s.argument_quality)).sum / (n : ℚ)
    let avg_subjectivity : ℚ := (history.map (fun s => s.subjectivity)).sum / (n : ℚ)
    let avg_fallacy_rate : ℚ := (history.map (fun s => s.fallacy_score)).sum / (n : ℚ)
    let avg_face_threats : ℚ := (history.map (fun s => s.face_threats)).sum / (n : ℚ)
    let total_speech_acts0 : ℕ := (history.map (fun s =>
      s.directive_count + s.expressive_count + s.accusation_count + s.challenge_count)).sum
    let total_speech_acts : ℕ := if total_speech_acts0 = 0 then 1 else total_speech_acts0
    let directive_rate : ℚ :=
      ((history.map (fun s => s.directive_count)).sum : ℚ) / (total_speech_acts : ℚ) * 100
    let expressive_rate : ℚ :=
      ((history.map (fun s => s.expressive_count)).sum : ℚ) / (total_speech_acts : ℚ) * 100
    let accusation_rate : ℚ :=
      ((history.map (fun s => s.accusation_count)).sum : ℚ) / (total_speech_acts : ℚ) * 100
    let total_stonewalling : ℕ := (history.map (fun s => s.stonewalling_indicators)).sum
    { profile with
      message_count := n
      avg_drama := avg_drama
      avg_neutrality := avg_neutrality
      avg_politeness := avg_politeness
      avg_argument_quality := avg_argument_quality
      avg_subjectivity := avg_subjectivity
      avg_fallacy_rate := avg_fallacy_rate
      avg_face_threats := avg_face_threats
      directive_rate := directive_rate
      expressive_rate := expressive_rate
      accusation_rate := accusation_rate
      total_stonewalling := total_stonewalling
      is_difficult := decide (total_stonewalling > 3 ∨
        (avg_drama > 6 ∧ avg_neutrality < 4) ∨ accusation_rate > 20) }

/-- The mutable state of a `ParticipantProfiler` instance
(source lines 396-399). -/
structure ProfilerState where
  profiles : List (String × ParticipantProfile) := []
  score_history : List (String × List DimensionalScores) := []
deriving DecidableEq

/-- `ParticipantProfiler.add_message` (source lines 401-410): analyze the
content, create the handle's entries on first sight, append to its history,
and recompute its profile from the full history. -/
def add_message (sig : String → TextSignals) (st : ProfilerState)
    (handle content : String) : ProfilerState :=
  let scores := analyze sig content
  let st1 : ProfilerState :=
    if (findEntry st.profiles handle).isSome then st
    else { profiles := st.profiles ++ [(handle, { handle := handle })]
           score_history := st.score_history ++ [(handle, [])] }
  let new_history := (findEntry st1.score_history handle).getD [] ++ [scores]
  let profile := (findEntry st1.profiles handle).getD { handle := handle }
  { profiles := setEntry st1.profiles handle (update_profile profile new_history)
    score_history := setEntry st1.score_history handle new_history }

/-- Run a sequence of `(handle, content)` calls to `add_message` against a
freshly constructed profiler. -/
def run_calls (sig : String → TextSignals) (calls : List (String × String)) :
    ProfilerState :=
  calls.foldl (fun st c => add_message sig st c.1 c.2) {}

/-- `ParticipantProfiler.get_profile` (source lines 452-454). -/
def get_profile (st : ProfilerState) (handle : String) : Option ParticipantProfile :=
  findEntry st.profiles handle

/-- The ordered list of contents of the calls addressed to `handle`. -/
def calls_for (calls : List (String × String)) (handle : String) : List String :=
  (calls.filter (fun c => c.1 = handle)).map (fun c => c.2)

/-- The direct batch computation of a handle's profile from the ordered
list of its message contents: score every message and compute every profile
field as a fresh aggregate over the full list. -/
def batch_profile (sig : String → TextSignals) (handle : String)
    (contents : List String) : ParticipantProfile :=
  update_profile { handle := handle } (contents.map (analyze sig))

/-!
## General lemmas about the embedded operations
-/

theorem round_mono_q {x y : ℚ} (h : x ≤ y) : round x ≤ round y := by
  rw [round_eq, round_eq]
  exact Int.floor_le_floor (by linarith)

theorem round2_mono {x y : ℚ} (h : x ≤ y) : round2 x ≤ round2 y := by
  unfold round2
  have h1 : round (x * 100) ≤ round (y * 100) := round_mono_q (by linarith)
  have h2 : ((round (x * 100) : ℤ) : ℚ) ≤ ((round (y * 100) : ℤ) : ℚ) := by
    exact_mod_cast h1
  linarith

theorem round2_zero : round2 0 = 0 := by
  norm_num [round2, round_eq]

theorem round2_ten : round2 10 = 10 := by
  norm_num [round2, round_eq]

theorem round2_nonneg {x : ℚ} (h : 0 ≤ x) : 0 ≤ round2 x := by
  have := round2_mono h
  rwa [round2_zero] at this

theorem round2_le_ten {x : ℚ} (h : x ≤ 10) : round2 x ≤ 10 := by
  have := round2_mono h
  rwa [round2_ten] at this

theorem score_signals_vader (t : TextSignals) :
    (score_signals t).vader_negativity = round2 ((1 - t.compound) * 5) := rfl

theorem score_signals_subjectivity (t : TextSignals) :
    (score_signals t).subjectivity = round2 (t.subjectivity * 10) := rfl

theorem score_signals_politeness (t : TextSignals) :
    (score_signals t).politeness = round2 (max 0 (min 10 (5 +
      (((t.positive_count : ℚ) * 2 + (t.hedge_count : ℚ)) -
       ((t.fta_count : ℚ) * 2 + (t.indirect_agg_count : ℚ) * 1.5))))) := rfl

theorem score_signals_face_threats (t : TextSignals) :
    (score_signals t).face_threats =
      round2 (min 10 (((t.fta_count : ℚ) + (t.indirect_agg_count : ℚ)) * 2)) := rfl

theorem score_signals_argument_quality (t : TextSignals) :
    (score_signals t).argument_quality = round2 (max 0 (min 10 (5 +
      (((t.evidence_count : ℚ) * 2 + (t.ack_count : ℚ) * 2 +
        (t.constructive_count : ℚ) * 1.5) - (t.dismissive_count : ℚ) * 2)))) := rfl

theorem score_signals_fallacy (t : TextSignals) :
    (score_signals t).fallacy_score = round2 (min 10
      (((t.ad_hominem_count + t.strawman_count + t.authority_count +
         t.goalposts_count + t.whataboutism_count : ℕ) : ℚ) * 2.5)) := rfl

theorem composite_keeps_fields (s : DimensionalScores) :
    (calculate_composite_scores s).vader_negativity = s.vader_negativity ∧
    (calculate_composite_scores s).subjectivity = s.subjectivity ∧
    (calculate_composite_scores s).politeness = s.politeness ∧
    (calculate_composite_scores s).face_threats = s.face_threats ∧
    (calculate_composite_scores s).argument_quality = s.argument_quality ∧
    (calculate_composite_scores s).fallacy_score = s.fallacy_score ∧
    (calculate_composite_scores s).accusation_count = s.accusation_count ∧
    (calculate_composite_scores s).stonewalling_indicators = s.stonewalling_indicators := by
  refine ⟨rfl, rfl, rfl, rfl, rfl, rfl, rfl, rfl⟩

/-- The `speech_act_drama` term of the composite formula. -/
def speech_act_drama_of (s : DimensionalScores) : ℚ :=
  min 10 ((s.accusation_count : ℚ) * 3 + (s.challenge_count : ℚ) * 2.5 +
    (s.expressive_count : ℚ) * 1.5 + (s.directive_count : ℚ) * 0.5)

/-- The `stonewalling_penalty` term of the composite formula. -/
def stonewalling_penalty_of (s : DimensionalScores) : ℚ :=
  min 3 ((s.stonewalling_indicators : ℚ) * 1.5)

/-- The weighted seven-term sum of the drama formula. -/
def drama_weighted_sum (s : DimensionalScores) : ℚ :=
  s.vader_negativity * 0.20 + (10 - s.politeness) * 0.20 +
  s.face_threats * 0.15 + s.subjectivity * 0.10 + s.fallacy_score * 0.15 +
  (10 - s.argument_quality) * 0.10 + speech_act_drama_of s * 0.10

theorem composite_drama (s : DimensionalScores) :
    (calculate_composite_scores s).drama_score =
      round2 (min 10 (round2 (drama_weighted_sum s) + stonewalling_penalty_of s)) := rfl

theorem composite_neutrality (s : DimensionalScores) :
    (calculate_composite_scores s).neutrality_score =
      round2 ((10 - s.subjectivity) * 0.30 + s.argument_quality * 0.30 +
        s.politeness * 0.20 + (10 - s.fallacy_score) * 0.10 +
        (10 - s.face_threats) * 0.10) := rfl

theorem composite_health (s : DimensionalScores) :
    (calculate_composite_scores s).health_assessment =
      healthRule5 (calculate_composite_scores s).drama_score
        (calculate_composite_scores s).neutrality_score := rfl

theorem score_signals_drama (t : TextSignals) :
    (score_signals t).drama_score =
      round2 (min 10 (round2 (drama_weighted_sum (score_signals t)) +
        stonewalling_penalty_of (score_signals t))) := rfl

theorem score_signals_neutrality (t : TextSignals) :
    (score_signals t).neutrality_score =
      round2 ((10 - (score_signals t).subjectivity) * 0.30 +
        (score_signals t).argument_quality * 0.30 +
        (score_signals t).politeness * 0.20 +
        (10 - (score_signals t).fallacy_score) * 0.10 +
        (10 - (score_signals t).face_threats) * 0.10) := rfl

theorem analyze_of_scored {sig : String → TextSignals} {text : String}
    (h : short_circuit text = false) :
    analyze sig text = score_signals (sig text) := by
  simp [analyze, h]

theorem analyze_of_short {sig : String → TextSignals} {text : String}
    (h : short_circuit text = true) :
    analyze sig text = {} := by
  simp [analyze, h]

/-!
## Concrete signal records used to instantiate the theorems
-/

/-- An engine output with neutral sentiment, zero subjectivity and no
pattern matches at all. -/
def zeroSig : TextSignals :=
  { compound := 0, subjectivity := 0, positive_count := 0, hedge_count := 0,
    fta_count := 0, indirect_agg_count := 0, directive_count := 0,
    expressive_count := 0, accusation_count := 0, challenge_count := 0,
    evidence_count := 0, ack_count := 0, constructive_count := 0,
    dismissive_count := 0, ad_hominem_count := 0, strawman_count := 0,
    authority_count := 0, goalposts_count := 0, whataboutism_count := 0,
    stonewalling_count := 0, dismiss_without_engagement_count := 0,
    threats_count := 0 }

/-- An engine output representing a maximally hostile message: maximally
negative sentiment, fully subjective, five face threats, four accusations,
four ad hominems, three dismissive markers and two stonewalling markers. -/
def hostileSig : TextSignals :=
  { zeroSig with
    compound := -1
    subjectivity := 1
    fta_count := 5
    accusation_count := 4
    ad_hominem_count := 4
    dismissive_count := 3
    stonewalling_count := 2 }

/-!
## Claim theorems
-/

/-- Claim C4: for every input string that is empty or whose trimmed length
is below 10 characters, `analyze` returns the default-valued
`DimensionalScores` — politeness 5, argument quality 5, every other
continuous score 0, all counters 0, health `"unknown"` — without running
any scoring. -/
theorem C4_short_input_returns_defaults (sig : String → TextSignals)
    (text : String) (h : text = "" ∨ (py_strip text).length < 10) :
    analyze sig text =
      { vader_negativity := 0, subjectivity := 0, politeness := 5,
        face_threats := 0, argument_quality := 5, fallacy_score := 0,
        directive_count := 0, expressive_count := 0, accusation_count := 0,
        challenge_count := 0, stonewalling_indicators := 0,
        threat_indicators := 0, drama_score := 0, neutrality_score := 0,
        health_assessment := "unknown" } := by
  have hs : short_circuit text = true := by
    rcases h with h | h
    · simp [short_circuit, h]
    · simp [short_circuit, h]
  rw [analyze_of_short hs]

/-- Witness for C4 at the 2-character input `"hi"`. -/
theorem C4_witness :
    analyze (fun _ => zeroSig) "hi" =
      { vader_negativity := 0, subjectivity := 0, politeness := 5,
        face_threats := 0, argument_quality := 5, fallacy_score := 0,
        directive_count := 0, expressive_count := 0, accusation_count := 0,
        challenge_count := 0, stonewalling_indicators := 0,
        threat_indicators := 0, drama_score := 0, neutrality_score := 0,
        health_assessment := "unknown" } :=
  C4_short_input_returns_defaults (fun _ => zeroSig) "hi" (Or.inr (by decide))

/-- Claim C8: `analyze_thread` on the empty message list returns the
sentinel result with drama score 0, neutrality score 5 and health label
`"empty"` — a returned value, and a label the 5-branch classification can
never produce. -/
theorem C8_empty_thread_sentinel :
    (∀ sig : String → TextSignals,
      analyze_thread sig [] = ThreadResult.emptyThread 0 5 "empty") ∧
    ∀ drama neutrality : ℚ, healthRule5 drama neutrality ≠ "empty" := by
  refine ⟨fun _ => rfl, fun drama neutrality => ?_⟩
  unfold healthRule5
  split_ifs <;> decide

/-- Claim C2: the health label stored by `analyze` is exactly the 5-branch
rule applied to the stored `(drama_score, neutrality_score)` pair, and the
thread-level label of `analyze_thread` is the same rule applied to the
thread's mean drama and mean neutrality. -/
theorem C2_health_is_pure_5_branch_rule :
    (∀ (sig : String → TextSignals) (text : String),
      short_circuit text = false →
      (analyze sig text).health_assessment =
        healthRule5 (analyze sig text).drama_score (analyze sig text).neutrality_score) ∧
    (∀ (sig : String → TextSignals) (messages : List RawMessage),
      messages ≠ [] →
      (analyze_thread sig messages).health =
        healthRule5 (thread_avg_drama sig messages) (thread_avg_neutrality sig messages)) := by
  constructor
  · intro sig text h
    rw [analyze_of_scored h]
    rfl
  · intro sig messages h
    match messages with
    | [] => exact absurd rfl h
    | m :: ms => rfl

/-- Witness for C2: a scored 12-character text and a one-message thread. -/
theorem C2_witness :
    (analyze (fun _ => hostileSig) "xxxxxxxxxxxx").health_assessment =
      healthRule5 (analyze (fun _ => hostileSig) "xxxxxxxxxxxx").drama_score
        (analyze (fun _ => hostileSig) "xxxxxxxxxxxx").neutrality_score ∧
    (analyze_thread (fun _ => hostileSig)
        [{ author := some "a", content := some "xxxxxxxxxxxx" }]).health =
      healthRule5
        (thread_avg_drama (fun _ => hostileSig)
          [{ author := some "a", content := some "xxxxxxxxxxxx" }])
        (thread_avg_neutrality (fun _ => hostileSig)
          [{ author := some "a", content := some "xxxxxxxxxxxx" }]) :=
  ⟨C2_health_is_pure_5_branch_rule.1 (fun _ => hostileSig) "xxxxxxxxxxxx" (by decide),
   C2_health_is_pure_5_branch_rule.2 (fun _ => hostileSig)
     [{ author := some "a", content := some "xxxxxxxxxxxx" }] (by decide)⟩

theorem vader_bounds (t : TextSignals) (hc1 : -1 ≤ t.compound)
    (hc2 : t.compound ≤ 1) :
    0 ≤ (score_signals t).vader_negativity ∧ (score_signals t).vader_negativity ≤ 10 := by
  rw [score_signals_vader]
  exact ⟨round2_nonneg (by nlinarith), round2_le_ten (by nlinarith)⟩

theorem subjectivity_bounds (t : TextSignals) (hs1 : 0 ≤ t.subjectivity)
    (hs2 : t.subjectivity ≤ 1) :
    0 ≤ (score_signals t).subjectivity ∧ (score_signals t).subjectivity ≤ 10 := by
  rw [score_signals_subjectivity]
  exact ⟨round2_nonneg (by nlinarith), round2_le_ten (by nlinarith)⟩

theorem politeness_bounds (t : TextSignals) :
    0 ≤ (score_signals t).politeness ∧ (score_signals t).politeness ≤ 10 := by
  rw [score_signals_politeness]
  exact ⟨round2_nonneg (le_max_left _ _),
    round2_le_ten (max_le (by norm_num) (min_le_left _ _))⟩

theorem face_threats_bounds (t : TextSignals) :
    0 ≤ (score_signals t).face_threats ∧ (score_signals t).face_threats ≤ 10 := by
  rw [score_signals_face_threats]
  exact ⟨round2_nonneg (le_min (by norm_num) (by positivity)),
    round2_le_ten (min_le_left _ _)⟩

theorem argument_quality_bounds (t : TextSignals) :
    0 ≤ (score_signals t).argument_quality ∧ (score_signals t).argument_quality ≤ 10 := by
  rw [score_signals_argument_quality]
  exact ⟨round2_nonneg (le_max_left _ _),
    round2_le_ten (max_le (by norm_num) (min_le_left _ _))⟩

theorem fallacy_bounds (t : TextSignals) :
    0 ≤ (score_signals t).fallacy_score ∧ (score_signals t).fallacy_score ≤ 10 := by
  rw [score_signals_fallacy]
  exact ⟨round2_nonneg (le_min (by norm_num) (by positivity)),
    round2_le_ten (min_le_left _ _)⟩

theorem speech_act_drama_bounds (s : DimensionalScores) :
    0 ≤ speech_act_drama_of s ∧ speech_act_drama_of s ≤ 10 := by
  unfold speech_act_drama_of
  exact ⟨le_min (by norm_num) (by positivity), min_le_left _ _⟩

theorem stonewalling_penalty_bounds (s : DimensionalScores) :
    0 ≤ stonewalling_penalty_of s ∧ stonewalling_penalty_of s ≤ 3 := by
  unfold stonewalling_penalty_of
  exact ⟨le_min (by norm_num) (by positivity), min_le_left _ _⟩

theorem drama_weighted_sum_bounds (s : DimensionalScores)
    (hv : 0 ≤ s.vader_negativity ∧ s.vader_negativity ≤ 10)
    (hsub : 0 ≤ s.subjectivity ∧ s.subjectivity ≤ 10)
    (hpol : 0 ≤ s.politeness ∧ s.politeness ≤ 10)
    (hface : 0 ≤ s.face_threats ∧ s.face_threats ≤ 10)
    (hq : 0 ≤ s.argument_quality ∧ s.argument_quality ≤ 10)
    (hfal : 0 ≤ s.fallacy_score ∧ s.fallacy_score ≤ 10) :
    0 ≤ drama_weighted_sum s ∧ drama_weighted_sum s ≤ 10 := by
  have hsad := speech_act_drama_bounds s
  unfold drama_weighted_sum
  constructor
  · linarith [hv.1, hsub.1, hpol.2, hface.1, hfal.1, hq.2, hsad.1]
  · linarith [hv.2, hsub.2, hpol.1, hface.2, hfal.2, hq.1, hsad.2]

/-- Claim C10: with one additional face-threatening occurrence counted on
otherwise-identical pattern signals (positive-politeness, hedge and
indirect-aggression counts unchanged; every other signal arbitrary), and
both texts long enough to be scored, `analyze` never decreases
`face_threats` and never increases `politeness`. -/
theorem C10_fta_monotonicity (sig : String → TextSignals) (text text' : String)
    (h : short_circuit text = false) (h' : short_circuit text' = false)
    (hF : (sig text').fta_count = (sig text).fta_count + 1)
    (hP : (sig text').positive_count = (sig text).positive_count)
    (hH : (sig text').hedge_count = (sig text).hedge_count)
    (hI : (sig text').indirect_agg_count = (sig text).indirect_agg_count) :
    (analyze sig text).face_threats ≤ (analyze sig text').face_threats ∧
    (analyze sig text').politeness ≤ (analyze sig text).politeness := by
  rw [analyze_of_scored h, analyze_of_scored h']
  rw [score_signals_face_threats, score_signals_face_threats,
    score_signals_politeness, score_signals_politeness, hF, hP, hH, hI]
  constructor
  · apply round2_mono
    apply min_le_min (le_refl 10)
    push_cast
    linarith
  · apply round2_mono
    apply max_le_max (le_refl 0)
    apply min_le_min (le_refl 10)
    push_cast
    linarith

/-- The oracle for the C10 witness: the longer text carries exactly one
more face-threatening match. -/
def c10Oracle : String → TextSignals := fun t =>
  if t = "yyyyyyyyyyyy" then { zeroSig with fta_count := 2 }
  else { zeroSig with fta_count := 1 }

/-- Witness for C10 at a concrete pair of scored texts. -/
theorem C10_witness :
    (analyze c10Oracle "xxxxxxxxxxxx").face_threats ≤
      (analyze c10Oracle "yyyyyyyyyyyy").face_threats ∧
    (analyze c10Oracle "yyyyyyyyyyyy").politeness ≤
      (analyze c10Oracle "xxxxxxxxxxxx").politeness :=
  C10_fta_monotonicity c10Oracle "xxxxxxxxxxxx" "yyyyyyyyyyyy"
    (by decide) (by decide) (by decide) (by decide) (by decide) (by decide)

/-- Claim C1: under the documented ranges of the two external engines
(VADER compound in `[-1, 1]`, TextBlob subjectivity in `[0, 1]`), every
bounded field of the `DimensionalScores` returned by `analyze` — the two
composites and the six dimension scores — lies in `[0, 10]`. -/
theorem C1_all_scores_bounded (sig : String → TextSignals) (text : String)
    (hc1 : -1 ≤ (sig text).compound) (hc2 : (sig text).compound ≤ 1)
    (hs1 : 0 ≤ (sig text).subjectivity) (hs2 : (sig text).subjectivity ≤ 1) :
    (0 ≤ (analyze sig text).drama_score ∧ (analyze sig text).drama_score ≤ 10) ∧
    (0 ≤ (analyze sig text).neutrality_score ∧ (analyze sig text).neutrality_score ≤ 10) ∧
    (0 ≤ (analyze sig text).vader_negativity ∧ (analyze sig text).vader_negativity ≤ 10) ∧
    (0 ≤ (analyze sig text).subjectivity ∧ (analyze sig text).subjectivity ≤ 10) ∧
    (0 ≤ (analyze sig text).politeness ∧ (analyze sig text).politeness ≤ 10) ∧
    (0 ≤ (analyze sig text).face_threats ∧ (analyze sig text).face_threats ≤ 10) ∧
    (0 ≤ (analyze sig text).argument_quality ∧ (analyze sig text).argument_quality ≤ 10) ∧
    (0 ≤ (analyze sig text).fallacy_score ∧ (analyze sig text).fallacy_score ≤ 10) := by
  cases hg : short_circuit text with
  | true =>
      rw [analyze_of_short hg]
      norm_num
  | false =>
      rw [analyze_of_scored hg]
      have hv := vader_bounds (sig text) hc1 hc2
      have hsub := subjectivity_bounds (sig text) hs1 hs2
      have hpol := politeness_bounds (sig text)
      have hface := face_threats_bounds (sig text)
      have hq := argument_quality_bounds (sig text)
      have hfal := fallacy_bounds (sig text)
      have hpen := stonewalling_penalty_bounds (score_signals (sig text))
      have hW := drama_weighted_sum_bounds (score_signals (sig text))
        hv hsub hpol hface hq hfal
      have hd : 0 ≤ (score_signals (sig text)).drama_score ∧
          (score_signals (sig text)).drama_score ≤ 10 := by
        rw [score_signals_drama]
        constructor
        · apply round2_nonneg
          exact le_min (by norm_num) (by linarith [round2_nonneg hW.1, hpen.1])
        · exact round2_le_ten (min_le_left _ _)
      have hn : 0 ≤ (score_signals (sig text)).neutrality_score ∧
          (score_signals (sig text)).neutrality_score ≤ 10 := by
        rw [score_signals_neutrality]
        constructor
        · apply round2_nonneg
          linarith [hsub.2, hq.1, hpol.1, hfal.2, hface.2]
        · apply round2_le_ten
          linarith [hsub.1, hq.2, hpol.2, hfal.1, hface.1]
      exact ⟨hd, hn, hv, hsub, hpol, hface, hq, hfal⟩

/-- Witness for C1 at a concrete engine output and text. -/
theorem C1_witness :
    (0 ≤ (analyze (fun _ => hostileSig) "xxxxxxxxxxxx").drama_score ∧
      (analyze (fun _ => hostileSig) "xxxxxxxxxxxx").drama_score ≤ 10) ∧
    (0 ≤ (analyze (fun _ => hostileSig) "xxxxxxxxxxxx").neutrality_score ∧
      (analyze (fun _ => hostileSig) "xxxxxxxxxxxx").neutrality_score ≤ 10) ∧
    (0 ≤ (analyze (fun _ => hostileSig) "xxxxxxxxxxxx").vader_negativity ∧
      (analyze (fun _ => hostileSig) "xxxxxxxxxxxx").vader_negativity ≤ 10) ∧
    (0 ≤ (analyze (fun _ => hostileSig) "xxxxxxxxxxxx").subjectivity ∧
      (analyze (fun _ => hostileSig) "xxxxxxxxxxxx").subjectivity ≤ 10) ∧
    (0 ≤ (analyze (fun _ => hostileSig) "xxxxxxxxxxxx").politeness ∧
      (analyze (fun _ => hostileSig) "xxxxxxxxxxxx").politeness ≤ 10) ∧
    (0 ≤ (analyze (fun _ => hostileSig) "xxxxxxxxxxxx").face_threats ∧
      (analyze (fun _ => hostileSig) "xxxxxxxxxxxx").face_threats ≤ 10) ∧
    (0 ≤ (analyze (fun _ => hostileSig) "xxxxxxxxxxxx").argument_quality ∧
      (analyze (fun _ => hostileSig) "xxxxxxxxxxxx").argument_quality ≤ 10) ∧
    (0 ≤ (analyze (fun _ => hostileSig) "xxxxxxxxxxxx").fallacy_score ∧
      (analyze (fun _ => hostileSig) "xxxxxxxxxxxx").fallacy_score ≤ 10) :=
  C1_all_scores_bounded (fun _ => hostileSig) "xxxxxxxxxxxx"
    (by norm_num [hostileSig, zeroSig]) (by norm_num [hostileSig, zeroSig])
    (by norm_num [hostileSig, zeroSig]) (by norm_num [hostileSig, zeroSig])

/-- Modelled from the spec: the drama-score formula of spec section 4.2
step 8 as literally written — `clamp(weighted sum + stonewalling_penalty,
0, 10)` over the stored dimension fields, with no intermediate rounding. -/
def specDramaFormula (s : DimensionalScores) : ℚ :=
  let speech_act_drama : ℚ := max 0 (min 10 ((s.accusation_count : ℚ) * 3 +
    (s.challenge_count : ℚ) * 2.5 + (s.expressive_count : ℚ) * 1.5 +
    (s.directive_count : ℚ) * 0.5))
  let stonewalling_penalty : ℚ := max 0 (min 3 ((s.stonewalling_indicators : ℚ) * 1.5))
  max 0 (min 10 (s.vader_negativity * 0.20 + (10 - s.politeness) * 0.20 +
    s.face_threats * 0.15 + s.subjectivity * 0.10 + s.fallacy_score * 0.15 +
    (10 - s.argument_quality) * 0.10 + speech_act_drama * 0.10 +
    stonewalling_penalty))

/-- The engine output for the C3 counterexample: VADER compound `-0.123`
(stored negativity 5.62), no other signals. -/
def c3Sig : TextSignals := { zeroSig with compound := -123/1000 }

/-- Counterexample to claim C3 as literally stated: on a scored text whose
stored negativity is 5.62, the code stores drama 2.62 (it rounds the
weighted sum 2.624 to two decimals) while the claim's unrounded clamp
formula yields 2.624. -/
theorem C3_counterexample :
    (analyze (fun _ => c3Sig) "xxxxxxxxxxxx").drama_score ≠
      specDramaFormula (analyze (fun _ => c3Sig) "xxxxxxxxxxxx") := by
  have h1 : (analyze (fun _ => c3Sig) "xxxxxxxxxxxx").drama_score = 131/50 := by
    rw [analyze_of_scored (by decide)]
    simp only [score_signals, calculate_composite_scores, c3Sig, zeroSig]
    norm_num [round2, round_eq, min_def, max_def]
  have h2 : specDramaFormula (analyze (fun _ => c3Sig) "xxxxxxxxxxxx") = 328/125 := by
    rw [analyze_of_scored (by decide)]
    simp only [specDramaFormula, score_signals, calculate_composite_scores,
      c3Sig, zeroSig]
    norm_num [round2, round_eq, min_def, max_def]
  rw [h1, h2]
  norm_num

/-- Claim C3 as amended: for every scored text (under the engines'
documented output ranges), the stored drama score is the claim's formula
with the code's two rounding steps inserted — the weighted seven-term sum
is rounded to two decimals before the stonewalling penalty is added, and
the clamped total is rounded to two decimals; both lower clamp bounds of
`speech_act_drama` and `stonewalling_penalty` are vacuous, and so is the
composite's own lower clamp. -/
theorem C3_amended_drama_formula (sig : String → TextSignals) (text : String)
    (h : short_circuit text = false)
    (hc1 : -1 ≤ (sig text).compound) (hc2 : (sig text).compound ≤ 1)
    (hs1 : 0 ≤ (sig text).subjectivity) (hs2 : (sig text).subjectivity ≤ 1) :
    (analyze sig text).drama_score =
      round2 (max 0 (min 10 (round2 (
        (analyze sig text).vader_negativity * 0.20 +
        (10 - (analyze sig text).politeness) * 0.20 +
        (analyze sig text).face_threats * 0.15 +
        (analyze sig text).subjectivity * 0.10 +
        (analyze sig text).fallacy_score * 0.15 +
        (10 - (analyze sig text).argument_quality) * 0.10 +
        max 0 (min 10 (((analyze sig text).accusation_count : ℚ) * 3 +
          ((analyze sig text).challenge_count : ℚ) * 2.5 +
          ((analyze sig text).expressive_count : ℚ) * 1.5 +
          ((analyze sig text).directive_count : ℚ) * 0.5)) * 0.10) +
        max 0 (min 3 (((analyze sig text).stonewalling_indicators : ℚ) * 1.5))))) := by
  rw [analyze_of_scored h]
  have e1 : max 0 (min 10 (((score_signals (sig text)).accusation_count : ℚ) * 3 +
      ((score_signals (sig text)).challenge_count : ℚ) * 2.5 +
      ((score_signals (sig text)).expressive_count : ℚ) * 1.5 +
      ((score_signals (sig text)).directive_count : ℚ) * 0.5)) =
      speech_act_drama_of (score_signals (sig text)) := by
    unfold speech_act_drama_of
    exact max_eq_right (le_min (by norm_num) (by positivity))
  have e2 : max 0 (min 3 (((score_signals (sig text)).stonewalling_indicators : ℚ) * 1.5)) =
      stonewalling_penalty_of (score_signals (sig text)) := by
    unfold stonewalling_penalty_of
    exact max_eq_right (le_min (by norm_num) (by positivity))
  rw [e1, e2]
  have e3 : (score_signals (sig text)).vader_negativity * 0.20 +
      (10 - (score_signals (sig text)).politeness) * 0.20 +
      (score_signals (sig text)).face_threats * 0.15 +
      (score_signals (sig text)).subjectivity * 0.10 +
      (score_signals (sig text)).fallacy_score * 0.15 +
      (10 - (score_signals (sig text)).argument_quality) * 0.10 +
      speech_act_drama_of (score_signals (sig text)) * 0.10 =
      drama_weighted_sum (score_signals (sig text)) := rfl
  rw [e3]
  have hW := drama_weighted_sum_bounds (score_signals (sig text))
    (vader_bounds (sig text) hc1 hc2) (subjectivity_bounds (sig text) hs1 hs2)
    (politeness_bounds (sig text)) (face_threats_bounds (sig text))
    (argument_quality_bounds (sig text)) (fallacy_bounds (sig text))
  have hpen := stonewalling_penalty_bounds (score_signals (sig text))
  have e4 : max 0 (min 10 (round2 (drama_weighted_sum (score_signals (sig text))) +
      stonewalling_penalty_of (score_signals (sig text)))) =
      min 10 (round2 (drama_weighted_sum (score_signals (sig text))) +
        stonewalling_penalty_of (score_signals (sig text))) :=
    max_eq_right (le_min (by norm_num)
      (add_nonneg (round2_nonneg hW.1) hpen.1))
  rw [e4]
  exact score_signals_drama (sig text)

/-- Witness for the amended C3 at a concrete scored input. -/
theorem C3_amended_witness :
    (analyze (fun _ => hostileSig) "xxxxxxxxxxxx").drama_score =
      round2 (max 0 (min 10 (round2 (
        (analyze (fun _ => hostileSig) "xxxxxxxxxxxx").vader_negativity * 0.20 +
        (10 - (analyze (fun _ => hostileSig) "xxxxxxxxxxxx").politeness) * 0.20 +
        (analyze (fun _ => hostileSig) "xxxxxxxxxxxx").face_threats * 0.15 +
        (analyze (fun _ => hostileSig) "xxxxxxxxxxxx").subjectivity * 0.10 +
        (analyze (fun _ => hostileSig) "xxxxxxxxxxxx").fallacy_score * 0.15 +
        (10 - (analyze (fun _ => hostileSig) "xxxxxxxxxxxx").argument_quality) * 0.10 +
        max 0 (min 10 (((analyze (fun _ => hostileSig) "xxxxxxxxxxxx").accusation_count : ℚ) * 3 +
          ((analyze (fun _ => hostileSig) "xxxxxxxxxxxx").challenge_count : ℚ) * 2.5 +
          ((analyze (fun _ => hostileSig) "xxxxxxxxxxxx").expressive_count : ℚ) * 1.5 +
          ((analyze (fun _ => hostileSig) "xxxxxxxxxxxx").directive_count : ℚ) * 0.5)) * 0.10) +
        max 0 (min 3 (((analyze (fun _ => hostileSig) "xxxxxxxxxxxx").stonewalling_indicators : ℚ) * 1.5))))) :=
  C3_amended_drama_formula (fun _ => hostileSig) "xxxxxxxxxxxx" (by decide)
    (by norm_num [hostileSig, zeroSig]) (by norm_num [hostileSig, zeroSig])
    (by norm_num [hostileSig, zeroSig]) (by norm_num [hostileSig, zeroSig])

theorem foldl_max_gt {c : ℚ} :
    ∀ (xs : List ℚ) (acc : ℚ), c < acc → (∀ x ∈ xs, c < x) →
      c < xs.foldl max acc := by
  intro xs
  induction xs with
  | nil => intro acc hacc _; simpa using hacc
  | cons y ys ih =>
      intro acc hacc hall
      simp only [List.foldl_cons]
      exact ih (max acc y) (lt_max_of_lt_left hacc)
        (fun x hx => hall x (List.mem_cons_of_mem _ hx))

theorem listMax_gt {l : List ℚ} {c : ℚ} (h : l ≠ [])
    (hall : ∀ x ∈ l, c < x) : c < listMax l := by
  match l with
  | [] => exact absurd rfl h
  | x :: xs =>
      exact foldl_max_gt xs x (hall x (by simp))
        (fun z hz => hall z (List.mem_cons_of_mem _ hz))

theorem mul_length_lt_sum {c : ℚ} :
    ∀ {l : List ℚ}, l ≠ [] → (∀ x ∈ l, c < x) → c * l.length < l.sum := by
  intro l
  induction l with
  | nil => intro h; exact absurd rfl h
  | cons x xs ih =>
      intro _ hall
      cases xs with
      | nil => simpa using hall x (by simp)
      | cons y ys =>
          have h1 := ih (by simp) (fun z hz => hall z (List.mem_cons_of_mem _ hz))
          have h2 := hall x (List.mem_cons_self _ _)
          simp only [List.sum_cons, List.length_cons] at h1 ⊢
          push_cast at h1 ⊢
          linarith

theorem meanOf_gt {l : List ℚ} {c : ℚ} (h : l ≠ [])
    (hall : ∀ x ∈ l, c < x) : c < meanOf l := by
  have hlen : (0 : ℚ) < l.length := by
    have : l.length ≠ 0 := fun hl => h (List.length_eq_zero.mp hl)
    exact_mod_cast Nat.pos_of_ne_zero this
  rw [meanOf, lt_div_iff₀ hlen]
  calc c * l.length < l.sum := mul_length_lt_sum h hall
  _ = l.sum := rfl

theorem analyze_thread_pileOn (sig : String → TextSignals) (m : RawMessage)
    (ms : List RawMessage) :
    (analyze_thread sig (m :: ms)).pileOn =
      decide (thread_avg_drama sig (m :: ms) > 5 ∧
        (thread_author_scores sig (m :: ms)).length > 5 ∧
        thread_max_drama sig (m :: ms) > 7) := rfl

/-- Claim C5: for every non-empty thread, `is_pile_on` is exactly the
conjunction `mean drama > 5 AND unique authors > 5 AND max drama > 7`;
in particular six messages from six distinct authors, each with drama
above 7, are flagged, while the same six messages from two distinct
authors are not. -/
theorem C5_pile_on_rule :
    (∀ (sig : String → TextSignals) (messages : List RawMessage),
      messages ≠ [] →
      ((analyze_thread sig messages).pileOn = true ↔
        (thread_avg_drama sig messages > 5 ∧
         (thread_author_scores sig messages).length > 5 ∧
         thread_max_drama sig messages > 7))) ∧
    (∀ (sig : String → TextSignals) (messages : List RawMessage),
      messages.length = 6 →
      (thread_author_scores sig messages).length = 6 →
      (∀ s ∈ message_scores sig messages, s.drama_score > 7) →
      (analyze_thread sig messages).pileOn = true) ∧
    (∀ (sig : String → TextSignals) (messages : List RawMessage),
      messages ≠ [] →
      (thread_author_scores sig messages).length = 2 →
      (analyze_thread sig messages).pileOn = false) := by
  have hrule : ∀ (sig : String → TextSignals) (messages : List RawMessage),
      messages ≠ [] →
      ((analyze_thread sig messages).pileOn = true ↔
        (thread_avg_drama sig messages > 5 ∧
         (thread_author_scores sig messages).length > 5 ∧
         thread_max_drama sig messages > 7)) := by
    intro sig messages h
    match messages with
    | [] => exact absurd rfl h
    | m :: ms => rw [analyze_thread_pileOn]; exact decide_eq_true_iff
  refine ⟨hrule, ?_, ?_⟩
  · intro sig messages hlen hauth hdrama
    have hne : messages ≠ [] := by
      intro hnil; rw [hnil] at hlen; simp at hlen
    have hmapne : (message_scores sig messages).map
        (fun s => s.drama_score) ≠ [] := by
      simp [message_scores, hne]
    have hall : ∀ x ∈ (message_scores sig messages).map
        (fun s => s.drama_score), (7 : ℚ) < x := by
      intro x hx
      rcases List.mem_map.mp hx with ⟨s, hs, rfl⟩
      exact hdrama s hs
    rw [hrule sig messages hne]
    refine ⟨lt_trans (by norm_num) (meanOf_gt hmapne hall), ?_, ?_⟩
    · rw [hauth]; norm_num
    · exact listMax_gt hmapne hall
  · intro sig messages hne hauth
    cases hb : (analyze_thread sig messages).pileOn with
    | false => rfl
    | true =>
        have := (hrule sig messages hne).mp hb
        rw [hauth] at this
        omega

/-- Witness for C5: the iff applied at a concrete six-author thread. -/
theorem C5_witness :
    (analyze_thread (fun _ => hostileSig)
        [{ author := some "a1", content := some "xxxxxxxxxxxx" },
         { author := some "a2", content := some "xxxxxxxxxxxx" },
         { author := some "a3", content := some "xxxxxxxxxxxx" },
         { author := some "a4", content := some "xxxxxxxxxxxx" },
         { author := some "a5", content := some "xxxxxxxxxxxx" },
         { author := some "a6", content := some "xxxxxxxxxxxx" }]).pileOn = true ↔
      (thread_avg_drama (fun _ => hostileSig)
        [{ author := some "a1", content := some "xxxxxxxxxxxx" },
         { author := some "a2", content := some "xxxxxxxxxxxx" },
         { author := some "a3", content := some "xxxxxxxxxxxx" },
         { author := some "a4", content := some "xxxxxxxxxxxx" },
         { author := some "a5", content := some "xxxxxxxxxxxx" },
         { author := some "a6", content := some "xxxxxxxxxxxx" }] > 5 ∧
       (thread_author_scores (fun _ => hostileSig)
        [{ author := some "a1", content := some "xxxxxxxxxxxx" },
         { author := some "a2", content := some "xxxxxxxxxxxx" },
         { author := some "a3", content := some "xxxxxxxxxxxx" },
         { author := some "a4", content := some "xxxxxxxxxxxx" },
         { author := some "a5", content := some "xxxxxxxxxxxx" },
         { author := some "a6", content := some "xxxxxxxxxxxx" }]).length > 5 ∧
       thread_max_drama (fun _ => hostileSig)
        [{ author := some "a1", content := some "xxxxxxxxxxxx" },
         { author := some "a2", content := some "xxxxxxxxxxxx" },
         { author := some "a3", content := some "xxxxxxxxxxxx" },
         { author := some "a4", content := some "xxxxxxxxxxxx" },
         { author := some "a5", content := some "xxxxxxxxxxxx" },
         { author := some "a6", content := some "xxxxxxxxxxxx" }] > 7) :=
  C5_pile_on_rule.1 (fun _ => hostileSig) _ (by decide)

/-- Filling in the defaults the source applies when reading a message dict:
`msg.get('author', 'unknown')` and `msg.get('content', '')`. -/
def normalize_message (m : RawMessage) : RawMessage :=
  { author := some (m.author.getD "unknown"), content := some (m.content.getD "") }

theorem message_scores_normalize (sig : String → TextSignals)
    (messages : List RawMessage) :
    message_scores sig (messages.map normalize_message) =
      message_scores sig messages := by
  simp [message_scores, normalize_message, List.map_map, Function.comp]

theorem thread_author_scores_normalize (sig : String → TextSignals)
    (messages : List RawMessage) :
    thread_author_scores sig (messages.map normalize_message) =
      thread_author_scores sig messages := by
  simp only [thread_author_scores, List.map_map]
  exact congrArg group_by_author
    (List.map_congr_left (fun m _ => by simp [normalize_message, Function.comp]))

/-- Claim C9: `analyze_thread` treats a message with a missing author as
authored by `"unknown"` and a message with missing content as the empty
string — the whole analysis equals the analysis of the list with those
placeholders filled in — and every message of a non-empty thread is
scored (the reported message count is the full list length). -/
theorem C9_malformed_messages_defaulted :
    (∀ (sig : String → TextSignals) (messages : List RawMessage),
      analyze_thread sig messages =
        analyze_thread sig (messages.map normalize_message)) ∧
    (∀ (sig : String → TextSignals) (messages : List RawMessage),
      messages ≠ [] →
      (analyze_thread sig messages).msgCount = messages.length) := by
  constructor
  · intro sig messages
    match messages with
    | [] => rfl
    | m :: ms =>
        simp only [analyze_thread, List.map_cons]
        simp only [thread_avg_drama, thread_avg_neutrality, thread_max_drama,
          ← List.map_cons, message_scores_normalize, thread_author_scores_normalize,
          List.length_map]
  · intro sig messages h
    match messages with
    | [] => exact absurd rfl h
    | m :: ms => rfl

/-- Witness for C9: a two-message thread whose first message lacks both
fields. -/
theorem C9_witness :
    analyze_thread (fun _ => hostileSig)
        [{ author := none, content := none },
         { author := some "bob", content := some "xxxxxxxxxxxx" }] =
      analyze_thread (fun _ => hostileSig)
        ([{ author := none, content := none },
          { author := some "bob", content := some "xxxxxxxxxxxx" }].map normalize_message) ∧
    (analyze_thread (fun _ => hostileSig)
        [{ author := none, content := none },
         { author := some "bob", content := some "xxxxxxxxxxxx" }]).msgCount = 2 :=
  ⟨C9_malformed_messages_defaulted.1 (fun _ => hostileSig) _,
   C9_malformed_messages_defaulted.2 (fun _ => hostileSig)
     [{ author := none, content := none },
      { author := some "bob", content := some "xxxxxxxxxxxx" }] (by decide)⟩

/-!
## Association-list and profiler-state lemmas
-/

theorem findEntry_setEntry_self {β : Type} (l : List (String × β)) (k : String)
    (v : β) : findEntry (setEntry l k v) k = some v := by
  induction l with
  | nil => simp [setEntry, findEntry]
  | cons p rest ih =>
      obtain ⟨a, b⟩ := p
      by_cases h : a = k
      · simp [setEntry, findEntry, h]
      · simp [setEntry, findEntry, h, ih]

theorem findEntry_setEntry_ne {β : Type} (l : List (String × β)) {k h : String}
    (v : β) (hne : k ≠ h) : findEntry (setEntry l k v) h = findEntry l h := by
  induction l with
  | nil => simp [setEntry, findEntry, hne]
  | cons p rest ih =>
      obtain ⟨a, b⟩ := p
      by_cases ha : a = k
      · subst ha
        simp [setEntry, findEntry, hne]
      · by_cases hah : a = h
        · simp [setEntry, findEntry, ha, hah, Ne.symm hne]
        · simp [setEntry, findEntry, ha, hah, ih]

theorem findEntry_append_single {β : Type} (l : List (String × β))
    (k h : String) (v : β) :
    findEntry (l ++ [(k, v)]) h =
      match findEntry l h with
      | some w => some w
      | none => if k = h then some v else none := by
  induction l with
  | nil => simp [findEntry]
  | cons p rest ih =>
      obtain ⟨a, b⟩ := p
      by_cases hah : a = h
      · simp [findEntry, hah]
      · simp [findEntry, hah, ih]

theorem add_message_history (sig : String → TextSignals) (st : ProfilerState)
    (k c : String) (h : String) :
    findEntry (add_message sig st k c).score_history h =
      if k = h then
        some ((findEntry st.score_history k).getD [] ++ [analyze sig c])
      else findEntry st.score_history h := by
  cases hp : (findEntry st.profiles k).isSome with
  | true =>
      by_cases hk : k = h
      · subst hk
        simp [add_message, hp, findEntry_setEntry_self]
      · simp [add_message, hp, findEntry_setEntry_ne _ _ hk, hk]
  | false =>
      by_cases hk : k = h
      · subst hk
        simp only [add_message, hp, Bool.false_eq_true, if_false, if_true,
          findEntry_setEntry_self]
        rw [findEntry_append_single]
        cases hfe : findEntry st.score_history k <;> simp
      · simp only [add_message, hp, Bool.false_eq_true, if_false,
          findEntry_setEntry_ne _ _ hk, hk]
        rw [findEntry_append_single]
        cases hfe : findEntry st.score_history h <;> simp [hk]

theorem add_message_profiles (sig : String → TextSignals) (st : ProfilerState)
    (k c : String) (h : String) :
    findEntry (add_message sig st k c).profiles h =
      if k = h then
        some (update_profile ((findEntry st.profiles k).getD { handle := k })
          ((findEntry st.score_history k).getD [] ++ [analyze sig c]))
      else findEntry st.profiles h := by
  cases hp : (findEntry st.profiles k).isSome with
  | true =>
      by_cases hk : k = h
      · subst hk
        simp [add_message, hp, findEntry_setEntry_self]
      · simp [add_message, hp, findEntry_setEntry_ne _ _ hk, hk]
  | false =>
      have hpn : findEntry st.profiles k = none := by
        cases hfe : findEntry st.profiles k
        · rfl
        · rw [hfe] at hp; simp at hp
      by_cases hk : k = h
      · subst hk
        simp only [add_message, hp, Bool.false_eq_true, if_false, if_true,
          findEntry_setEntry_self]
        rw [findEntry_append_single, findEntry_append_single, hpn]
        cases hfe : findEntry st.score_history k <;> simp
      · simp only [add_message, hp, Bool.false_eq_true, if_false,
          findEntry_setEntry_ne _ _ hk, hk]
        rw [findEntry_append_single]
        cases hfe : findEntry st.profiles h <;> simp [hk]

theorem run_calls_concat (sig : String → TextSignals)
    (calls : List (String × String)) (c : String × String) :
    run_calls sig (calls ++ [c]) =
      add_message sig (run_calls sig calls) c.1 c.2 := by
  simp [run_calls, List.foldl_append]

theorem calls_for_concat (calls : List (String × String)) (c : String × String)
    (h : String) :
    calls_for (calls ++ [c]) h =
      calls_for calls h ++ (if c.1 = h then [c.2] else []) := by
  by_cases hc : c.1 = h <;>
    simp [calls_for, List.filter_append, List.filter_cons, hc]

theorem mem_map_fst_concat {cs : List (String × String)} {c : String × String}
    {h : String} :
    h ∈ ((cs ++ [c]).map Prod.fst) ↔ (h ∈ cs.map Prod.fst ∨ c.1 = h) := by
  simp [List.map_append, eq_comm]

theorem calls_for_nil_of_not_mem {calls : List (String × String)} {h : String}
    (hm : h ∉ calls.map Prod.fst) : calls_for calls h = [] := by
  have hfil : calls.filter (fun c => c.1 = h) = [] := by
    rw [List.filter_eq_nil_iff]
    intro c hc
    simp only [decide_eq_true_eq]
    intro hch
    exact hm (hch ▸ List.mem_map_of_mem Prod.fst hc)
  simp [calls_for, hfil]

theorem run_calls_history (sig : String → TextSignals)
    (calls : List (String × String)) (h : String) :
    findEntry (run_calls sig calls).score_history h =
      if h ∈ calls.map Prod.fst then
        some ((calls_for calls h).map (analyze sig))
      else none := by
  induction calls using List.reverseRecOn with
  | nil => simp [run_calls, findEntry]
  | append_singleton cs c ih =>
      rw [run_calls_concat, add_message_history, ih]
      by_cases hk : c.1 = h
      · rw [if_pos hk, if_pos (mem_map_fst_concat.mpr (Or.inr hk))]
        by_cases hm : h ∈ cs.map Prod.fst
        · simp [hm, calls_for_concat, hk, ih]
        · simp [hm, calls_for_concat, hk, ih, calls_for_nil_of_not_mem hm]
      · rw [if_neg hk]
        by_cases hm : h ∈ cs.map Prod.fst
        · rw [if_pos hm, if_pos (mem_map_fst_concat.mpr (Or.inl hm))]
          simp [calls_for_concat, hk]
        · rw [if_neg hm, if_neg (fun hmem =>
            (mem_map_fst_concat.mp hmem).elim hm hk)]

theorem update_profile_handle (p : ParticipantProfile)
    (hist : List DimensionalScores) : (update_profile p hist).handle = p.handle := by
  unfold update_profile
  by_cases hl : hist.length = 0
  · simp [hl]
  · simp [hl]

theorem update_profile_congr {p q : ParticipantProfile}
    (hpq : p.handle = q.handle) {hist : List DimensionalScores}
    (hne : hist ≠ []) : update_profile p hist = update_profile q hist := by
  have hlen : ¬hist.length = 0 := fun hl => hne (List.length_eq_zero.mp hl)
  unfold update_profile
  simp only [hlen, if_false]
  cases p
  cases q
  simp only at hpq
  simp [hpq]

theorem run_calls_profiles (sig : String → TextSignals)
    (calls : List (String × String)) (h : String) :
    findEntry (run_calls sig calls).profiles h =
      if h ∈ calls.map Prod.fst then
        some (update_profile { handle := h }
          ((calls_for calls h).map (analyze sig)))
      else none := by
  induction calls using List.reverseRecOn with
  | nil => simp [run_calls, findEntry]
  | append_singleton cs c ih =>
      rw [run_calls_concat, add_message_profiles]
      by_cases hk : c.1 = h
      · subst hk
        rw [if_pos rfl, if_pos (mem_map_fst_concat.mpr (Or.inr rfl)), ih,
          run_calls_history]
        by_cases hm : c.1 ∈ cs.map Prod.fst
        · rw [if_pos hm, if_pos hm]
          simp only [Option.getD_some]
          congr 1
          rw [update_profile_congr (p := update_profile { handle := c.1 }
              ((calls_for cs c.1).map (analyze sig))) (q := { handle := c.1 })
              (update_profile_handle _ _) (by simp)]
          congr 1
          simp [calls_for_concat]
        · rw [if_neg hm, if_neg hm]
          simp only [Option.getD_none]
          congr 1
          simp [calls_for_concat, calls_for_nil_of_not_mem hm]
      · rw [if_neg hk, ih]
        by_cases hm : h ∈ cs.map Prod.fst
        · rw [if_pos hm, if_pos (mem_map_fst_concat.mpr (Or.inl hm))]
          simp [calls_for_concat, hk]
        · rw [if_neg hm, if_neg (fun hmem =>
            (mem_map_fst_concat.mp hmem).elim hm hk)]

/-- Claim C6: after any sequence of `add_message` calls, the profile stored
for a handle is exactly the direct batch computation over that handle's own
ordered message list — every field a fresh aggregate over its full stored
history — independent of how calls for other handles were interleaved
(the result depends only on the subsequence of calls for that handle). -/
theorem C6_profile_equals_batch_recompute (sig : String → TextSignals)
    (calls : List (String × String)) (handle : String) :
    get_profile (run_calls sig calls) handle =
      if handle ∈ calls.map Prod.fst then
        some (batch_profile sig handle (calls_for calls handle))
      else none := by
  rw [get_profile, run_calls_profiles]
  rfl

/-- The ordered score history `analyze` produces for one handle's calls. -/
def profile_history (sig : String → TextSignals) (calls : List (String × String))
    (handle : String) : List DimensionalScores :=
  (calls_for calls handle).map (analyze sig)

/-- The profile the profiler stores for a handle after a call sequence. -/
def stored_profile (sig : String → TextSignals) (calls : List (String × String))
    (handle : String) : ParticipantProfile :=
  (get_profile (run_calls sig calls) handle).getD { handle := handle }

theorem calls_for_ne_nil_of_mem {calls : List (String × String)} {h : String}
    (hm : h ∈ calls.map Prod.fst) : calls_for calls h ≠ [] := by
  obtain ⟨c, hc, hch⟩ := List.mem_map.mp hm
  intro hnil
  rw [calls_for, List.map_eq_nil_iff] at hnil
  have := List.filter_eq_nil_iff.mp hnil c hc
  simp [hch] at this

theorem stored_profile_eq (sig : String → TextSignals)
    (calls : List (String × String)) (handle : String)
    (hm : handle ∈ calls.map Prod.fst) :
    stored_profile sig calls handle =
      update_profile { handle := handle } (profile_history sig calls handle) := by
  unfold stored_profile profile_history
  rw [get_profile, run_calls_profiles, if_pos hm]
  rfl

theorem update_profile_accusation_rate (p : ParticipantProfile)
    (x : DimensionalScores) (xs : List DimensionalScores) :
    (update_profile p (x :: xs)).accusation_rate =
      (((x :: xs).map (fun s => s.accusation_count)).sum : ℚ) /
        ((max 1 (((x :: xs).map (fun s => s.directive_count +
          s.expressive_count + s.accusation_count + s.challenge_count)).sum) : ℕ) : ℚ) * 100 := by
  have hrfl : (update_profile p (x :: xs)).accusation_rate =
      (((x :: xs).map (fun s => s.accusation_count)).sum : ℚ) /
        (((if ((x :: xs).map (fun s => s.directive_count + s.expressive_count +
            s.accusation_count + s.challenge_count)).sum = 0 then 1
          else ((x :: xs).map (fun s => s.directive_count + s.expressive_count +
            s.accusation_count + s.challenge_count)).sum) : ℕ) : ℚ) * 100 := rfl
  have hmax : (if ((x :: xs).map (fun s => s.directive_count + s.expressive_count +
        s.accusation_count + s.challenge_count)).sum = 0 then 1
      else ((x :: xs).map (fun s => s.directive_count + s.expressive_count +
        s.accusation_count + s.challenge_count)).sum) =
      max 1 (((x :: xs).map (fun s => s.directive_count + s.expressive_count +
        s.accusation_count + s.challenge_count)).sum) := by
    by_cases h0 : ((x :: xs).map (fun s => s.directive_count + s.expressive_count +
        s.accusation_count + s.challenge_count)).sum = 0
    · rw [if_pos h0, h0]
      simp
    · rw [if_neg h0]
      exact (Nat.max_eq_right (Nat.one_le_iff_ne_zero.mpr h0)).symm
  rw [hrfl, hmax]

theorem update_profile_is_difficult_iff (p : ParticipantProfile)
    (x : DimensionalScores) (xs : List DimensionalScores) :
    ((update_profile p (x :: xs)).is_difficult = true ↔
      ((update_profile p (x :: xs)).total_stonewalling > 3 ∨
       ((update_profile p (x :: xs)).avg_drama > 6 ∧
        (update_profile p (x :: xs)).avg_neutrality < 4) ∨
       (update_profile p (x :: xs)).accusation_rate > 20)) :=
  decide_eq_true_iff

/-- Claim C7: after any sequence of `add_message` calls, a stored profile
is flagged `is_difficult` exactly when
`total_stonewalling > 3 OR (mean drama > 6 AND mean neutrality < 4) OR
accusation_rate > 20`, where `accusation_rate` is the handle's summed
accusation count as a percentage of its total speech-act occurrences with
denominator `max 1 (total speech acts)` — so a handle with no speech acts
divides by 1, never by 0. -/
theorem C7_is_difficult_rule (sig : String → TextSignals)
    (calls : List (String × String)) (handle : String)
    (hm : handle ∈ calls.map Prod.fst) :
    ((stored_profile sig calls handle).accusation_rate =
      (((profile_history sig calls handle).map (fun s => s.accusation_count)).sum : ℚ) /
        ((max 1 (((profile_history sig calls handle).map (fun s =>
          s.directive_count + s.expressive_count + s.accusation_count +
          s.challenge_count)).sum) : ℕ) : ℚ) * 100) ∧
    ((stored_profile sig calls handle).is_difficult = true ↔
      ((stored_profile sig calls handle).total_stonewalling > 3 ∨
       ((stored_profile sig calls handle).avg_drama > 6 ∧
        (stored_profile sig calls handle).avg_neutrality < 4) ∨
       (stored_profile sig calls handle).accusation_rate > 20)) := by
  have hne : profile_history sig calls handle ≠ [] := by
    unfold profile_history
    intro hnil
    exact calls_for_ne_nil_of_mem hm (List.map_eq_nil_iff.mp hnil)
  obtain ⟨x, xs, hxxs⟩ : ∃ x xs, profile_history sig calls handle = x :: xs := by
    cases hh : profile_history sig calls handle with
    | nil => exact absurd hh hne
    | cons x xs => exact ⟨x, xs, rfl⟩
  rw [stored_profile_eq sig calls handle hm, hxxs]
  exact ⟨update_profile_accusation_rate _ x xs,
    update_profile_is_difficult_iff _ x xs⟩

/-- Witness for C7 after a single `add_message` call. -/
theorem C7_witness :
    ((stored_profile (fun _ => hostileSig) [("alice", "xxxxxxxxxxxx")] "alice").accusation_rate =
      (((profile_history (fun _ => hostileSig) [("alice", "xxxxxxxxxxxx")] "alice").map
          (fun s => s.accusation_count)).sum : ℚ) /
        ((max 1 (((profile_history (fun _ => hostileSig) [("alice", "xxxxxxxxxxxx")] "alice").map
          (fun s => s.directive_count + s.expressive_count + s.accusation_count +
            s.challenge_count)).sum) : ℕ) : ℚ) * 100) ∧
    ((stored_profile (fun _ => hostileSig) [("alice", "xxxxxxxxxxxx")] "alice").is_difficult = true ↔
      ((stored_profile (fun _ => hostileSig) [("alice", "xxxxxxxxxxxx")] "alice").total_stonewalling > 3 ∨
       ((stored_profile (fun _ => hostileSig) [("alice", "xxxxxxxxxxxx")] "alice").avg_drama > 6 ∧
        (stored_profile (fun _ => hostileSig) [("alice", "xxxxxxxxxxxx")] "alice").avg_neutrality < 4) ∨
       (stored_profile (fun _ => hostileSig) [("alice", "xxxxxxxxxxxx")] "alice").accusation_rate > 20)) :=
  C7_is_difficult_rule (fun _ => hostileSig) [("alice", "xxxxxxxxxxxx")] "alice"
    (by decide)

end DramaDetector
